import Mathlib

/-!
Verification development for the BarkBack recording/playback/upload
coordinator (the `HomeScreen` component in `src/unnamed/part_000` together
with the hooks `useAudioUploader` and `useAudioPlayer` under
`src/frontend/hooks/`).

The screen's React state variables are collected into an explicit
`CoordState` record, and every event handler of the screen becomes a pure
function from the pre-state (plus the outcomes of the external collaborators:
the playback service, the capture service, the upload client, the persistent
store) to the post-state.  External nondeterminism (does a stop succeed, does
the network call resolve, what does the server answer) is passed in as
explicit parameters, which is the standard shallow embedding of async code
whose awaited calls can either resolve or reject.
-/

namespace BarkBack

/-- `TranslationItem` from `src/unnamed/part_000`: one completed translation.
`filename` and `translation` are optional in the TypeScript type; `uri` is the
source reference of the uploaded audio. -/
structure TranslationItem where
  id : String
  filename : Option String
  translation : Option String
  uri : String
deriving Repr, DecidableEq

/-- The coordinator state: the `useState` variables of `HomeScreen` in
`src/unnamed/part_000`, the state of the `useAudioPlayer` hook
(`playbackInstance`/`isPlaying`), the `isUploading` flag of the
`useAudioUploader` hook, and the content of the external persistent
key-value store (`AsyncStorage` under `TRANSLATIONS_STORAGE_KEY`).
`soundPlaying` is the playback service's own truth about whether the loaded
sound is audibly playing; `isPlaying` is the hook's mirror of the last
status the service reported. -/
structure CoordState where
  isRecording : Bool
  hasRecording : Bool
  recordingUri : Option String
  translations : List TranslationItem
  isLoading : Bool
  error : Option String
  isStorageLoading : Bool
  currentlyPlayingUri : Option String
  isPlaying : Bool
  hasInstance : Bool
  soundPlaying : Bool
  isUploading : Bool
  store : Option String
deriving Repr, DecidableEq

/-- `stopPlayback` from `useAudioPlayer.ts`.  If there is no playback
instance it returns at once.  Otherwise it stops and unloads the sound; the
`finally` block clears `playbackInstance` and `isPlaying` whether or not
stopping threw, and on a throw the hook re-raises
`Stop Playback Failed: <message>`.  The returned `Option String` is the
raised error (`none` = resolved). -/

def stopPlaybackFn (s : CoordState) (stopOk : Bool) (stopMsg : String) :
    CoordState × Option String :=
  if s.hasInstance = false then (s, none)
  else
    let s1 := { s with hasInstance := false, soundPlaying := false, isPlaying := false }
    if stopOk then (s1, none)
    else (s1, some ("Stop Playback Failed: " ++ stopMsg))

/-- The load-and-play part of `playAudio` (the `try` block): set the audio
mode, create the sound with `shouldPlay: true`.  On success the instance is
stored and `isPlaying` set; on a throw the catch block clears the instance,
forces `isPlaying := false` and re-raises `Playback Failed: <message>`. -/
def playLoad (s : CoordState) (loadOk : Bool) (loadMsg : String) :
    CoordState × Option String :=
  if loadOk then
    ({ s with hasInstance := true, soundPlaying := true, isPlaying := true }, none)
  else
    ({ s with hasInstance := false, isPlaying := false },
     some ("Playback Failed: " ++ loadMsg))

/-- `playAudio` from `useAudioPlayer.ts`: if something is playing it first
awaits `stopPlayback` (outside the `try`, so a stop failure propagates to the
caller unwrapped), then loads and starts the new sound. -/
def playAudioFn (s : CoordState) (stopOk : Bool) (stopMsg : String)
    (loadOk : Bool) (loadMsg : String) : CoordState × Option String :=
  if s.isPlaying then
    match stopPlaybackFn s stopOk stopMsg with
    | (s1, some e) => (s1, some e)
    | (s1, none) => playLoad s1 loadOk loadMsg
  else playLoad s loadOk loadMsg

/-- `handleHistoryItemPress` from `src/unnamed/part_000`: guard against a
missing uri, clear the error, then toggle-stop if this uri is the one
playing, else play it and on success record it as `currentlyPlayingUri`. -/
def handleHistoryItemPress (s : CoordState) (uri : String)
    (stopOk : Bool) (stopMsg : String) (loadOk : Bool) (loadMsg : String) :
    CoordState :=
  if uri = "" then s
  else
    let s0 := { s with error := none }
    if s0.isPlaying ∧ s0.currentlyPlayingUri = some uri then
      match stopPlaybackFn s0 stopOk stopMsg with
      | (s1, some e) => { s1 with error := some e }
      | (s1, none) => s1
    else
      match playAudioFn s0 stopOk stopMsg loadOk loadMsg with
      | (s1, some e) => { s1 with error := some e }
      | (s1, none) => { s1 with currentlyPlayingUri := some uri }

/-- `handlePlaybackPress` from `src/unnamed/part_000` (play/pause of the
latest recording): clear the error; if the latest recording is the uri
currently playing, stop it; otherwise play `recordingUri` if present (alert
only when absent). -/
def handlePlaybackPress (s : CoordState) (stopOk : Bool) (stopMsg : String)
    (loadOk : Bool) (loadMsg : String) : CoordState :=
  let s0 := { s with error := none }
  if s0.isPlaying ∧ s0.currentlyPlayingUri = s0.recordingUri then
    match stopPlaybackFn s0 stopOk stopMsg with
    | (s1, some e) => { s1 with error := some e }
    | (s1, none) => s1
  else
    match s0.recordingUri with
    | none => s0
    | some uri =>
      match playAudioFn s0 stopOk stopMsg loadOk loadMsg with
      | (s1, some e) => { s1 with error := some e }
      | (s1, none) => { s1 with currentlyPlayingUri := some uri }

/-- `startRecording` from `src/unnamed/part_000`.  Clears the error; if
playback is active it awaits `stopPlayback`, and on a stop failure it only
records the error and continues (the source deliberately does not return
there).  Then `isLoading` is set, permission is checked (`permGranted` is the
effective permission after a possible request; denial alerts and returns),
the audio session is configured and capture started (`startOk` covers both,
they share one `catch`).  On success the new recording is stored,
`isRecording` set and the previous `recordingUri` cleared; on a throw
`lastError` is set and `isRecording` forced false.  `finally` clears
`isLoading`. -/
def startRecording (s : CoordState) (stopOk : Bool) (stopMsg : String)
    (permGranted : Bool) (startOk : Bool) (startMsg : String) : CoordState :=
  let s0 := { s with error := none }
  let s1 :=
    if s0.isPlaying then
      match stopPlaybackFn s0 stopOk stopMsg with
      | (s', some e) => { s' with error := some ("Failed to stop previous playback: " ++ e) }
      | (s', none) => s'
    else s0
  let s2 := { s1 with isLoading := true }
  if permGranted = false then { s2 with isLoading := false }
  else if startOk then
    { s2 with hasRecording := true, isRecording := true, recordingUri := none,
              isLoading := false }
  else
    { s2 with error := some ("Start Recording Failed: " ++ startMsg),
              isRecording := false, isLoading := false }

/-- `stopRecording` from `src/unnamed/part_000`: no-op without a recording
object.  Clears `isRecording`, finalizes capture; on success stores the uri
returned by `getURI()` (which may be null) and drops the recording object; on
a throw sets `lastError` and forces `recordingUri := null` (the recording
object is not cleared on the failure path in the source). -/
def stopRecording (s : CoordState) (stopRecOk : Bool) (recUri : Option String)
    (recErrMsg : String) : CoordState :=
  if s.hasRecording = false then s
  else
    let s0 := { s with isRecording := false }
    if stopRecOk then
      { s0 with recordingUri := recUri, hasRecording := false }
    else
      { s0 with error := some ("Stop Recording Failed: " ++ recErrMsg),
                recordingUri := none }

/-- `handleRecordPress` from `src/unnamed/part_000`: if recording, stop the
recording.  Otherwise, if playing, `stopPlayback().then(startRecording)`
with a `.catch` that sets `Stop Playback Failed: <message>` — so recording
starts only after the stop resolved successfully.  If not playing, start
recording directly. -/
def handleRecordPress (s : CoordState)
    (stopRecOk : Bool) (recUri : Option String) (recErrMsg : String)
    (stopOk : Bool) (stopMsg : String)
    (permGranted : Bool) (startOk : Bool) (startMsg : String) : CoordState :=
  if s.isRecording then stopRecording s stopRecOk recUri recErrMsg
  else if s.isPlaying then
    match stopPlaybackFn s stopOk stopMsg with
    | (s1, some e) => { s1 with error := some ("Stop Playback Failed: " ++ e) }
    | (s1, none) => startRecording s1 stopOk stopMsg permGranted startOk startMsg
  else startRecording s stopOk stopMsg permGranted startOk startMsg

/-- The result shape returned by the uploader hook on success
(`UploadSuccessData` in `useAudioUploader.ts`). -/
structure UploadSuccessData where
  filename : Option String
  translation : Option String
deriving Repr, DecidableEq

/-- The part of `handleUploadPress` after the playback-stop block: the
null-uri guard (alert only, no state change), then
`setError(null); setIsLoading(true)`, the hook call, and on success a new
`TranslationItem` holding the uploaded uri is prepended to `translations`
and `recordingUri` cleared; on failure `lastError` is set to the error's
message with the JS `||` fallback for a falsy (empty) message.  `finally`
clears `isLoading`; the hook's own `finally` has cleared `isUploading` by
the time the await returns, so the post-state always has it false.
`newId` stands for the generated `trans-<Date.now()>-<Math.random()>`. -/
def uploadCore (s1 : CoordState)
    (uploadResult : Except String UploadSuccessData) (newId : String) :
    CoordState :=
  match s1.recordingUri with
  | none => s1
  | some uriToUpload =>
    let s2 := { s1 with error := none, isLoading := true }
    match uploadResult with
    | Except.ok result =>
      { s2 with
        translations :=
          { id := newId, filename := result.filename,
            translation := result.translation, uri := uriToUpload } :: s2.translations,
        recordingUri := none, isUploading := false, isLoading := false }
    | Except.error m =>
      { s2 with
        error := some (if m = "" then "An unknown upload error occurred." else m),
        isUploading := false, isLoading := false }

/-- `handleUploadPress` from `src/unnamed/part_000`.  If playing, awaits
`stopPlayback` first; a stop failure sets the error and returns, aborting
the upload.  Otherwise execution continues with `uploadCore`. -/
def handleUploadPress (s : CoordState) (stopOk : Bool) (stopMsg : String)
    (uploadResult : Except String UploadSuccessData) (newId : String) :
    CoordState :=
  if s.isPlaying then
    match stopPlaybackFn s stopOk stopMsg with
    | (s1, some e) =>
      { s1 with error := some ("Failed to stop playback before upload: " ++ e) }
    | (s1, none) => uploadCore s1 uploadResult newId
  else uploadCore s uploadResult newId

/-- JS truthiness of an optional string-valued JSON field: present and
non-empty.  `undefined`, `null` and `""` are all falsy. -/
def truthyStr (o : Option String) : Bool :=
  match o with
  | none => false
  | some t => t ≠ ""

/-- JS `o || d` for an optional string `o`: the fallback fires on a falsy
(absent or empty) value. -/
def jsOr (o : Option String) (d : String) : String :=
  match o with
  | none => d
  | some t => if t = "" then d else t

/-- One element of a FastAPI-style `detail` array: an object whose `msg` and
`loc` fields may be absent. -/
structure FieldError where
  msg : Option String
  loc : Option (List String)
deriving Repr, DecidableEq

/-- The shapes the `responseData.detail` payload can take in
`useAudioUploader.ts`: a string, an array of (possibly null) objects, or
some other object.  A JS object or array is always truthy; a string is falsy
exactly when empty. -/
inductive DetailVal where
  | dstr (s : String)
  | darr (items : List (Option FieldError))
  | dobj (stringified : String)
deriving Repr, DecidableEq

/-- Rough model of `JSON.stringify` on a `detail` array element; no claim
depends on its exact output, only on the messages being non-empty. -/
def stringifyFieldError (fe : Option FieldError) : String :=
  match fe with
  | none => "null"
  | some f =>
    "\x7b\"msg\":" ++
      (match f.msg with
       | none => "null"
       | some m => "\"" ++ m ++ "\"") ++ "\x7d"

/-- Rough model of `JSON.stringify` on the whole `detail` value. -/
def stringifyDetail (d : DetailVal) : String :=
  match d with
  | DetailVal.dstr s => "\"" ++ s ++ "\""
  | DetailVal.darr items => "[" ++ String.intercalate "," (items.map stringifyFieldError) ++ "]"
  | DetailVal.dobj j => j

/-- The `processedErrorDetail` computation of `useAudioUploader.ts` lines
156-171: default `Server error: <status>`; overridden by a truthy string
detail, by the first element of a non-empty detail array (using its `msg`
when that is a string, with an optional ` (Field: ...)` location), or by the
stringified object for any other truthy object detail (an empty array falls
into this last branch: it is truthy, and `typeof [] == 'object'`). -/
def processedErrorDetail (status : Nat) (detail : Option DetailVal) : String :=
  let dflt := "Server error: " ++ toString status
  match detail with
  | none => dflt
  | some (DetailVal.dstr str) => if str = "" then dflt else str
  | some (DetailVal.darr items) =>
    match items with
    | [] => "Server Error Detail: " ++ stringifyDetail (DetailVal.darr items)
    | firstError :: _ =>
      match firstError with
      | some fe =>
        match fe.msg with
        | some m =>
          let location :=
            match fe.loc with
            | some l => " (Field: " ++ String.intercalate " -> " l ++ ")"
            | none => ""
          "Validation Error: " ++ m ++ location
        | none => "Validation Error: " ++ stringifyDetail (DetailVal.darr items)
      | none => "Validation Error: " ++ stringifyDetail (DetailVal.darr items)
  | some (DetailVal.dobj j) => "Server Error Detail: " ++ j

/-- The parsed JSON body of the server's response: the fields
`useAudioUploader.ts` looks at. -/
structure ResponseBody where
  translation : Option String
  filename : Option String
  detail : Option DetailVal
deriving Repr, DecidableEq

/-- An HTTP response as the hook observes it: `ok`/`status` from `fetch`,
`body = none` when `response.json()` rejects (non-JSON body), and the raw
text read in that error path. -/
structure ServerResponse where
  ok : Bool
  status : Nat
  body : Option ResponseBody
  rawText : String
deriving Repr, DecidableEq

/-- Outcome of the `fetch` call: transport failure or a response. -/
inductive FetchOutcome where
  | netError (msg : String)
  | response (resp : ServerResponse)
deriving Repr, DecidableEq

/-- `uploadAudio` from `useAudioUploader.ts` (mobile path; the FormData
bookkeeping itself cannot fail there).  The null-uri, missing-endpoint and
file-existence guards throw before the main `try` block, so their messages
are unwrapped; everything thrown inside the `try` (network failure, non-JSON
body, non-success response) is re-thrown by the `catch` as
`Upload failed: <message>`.  Success requires `response.ok` and a truthy
`translation` field; the returned filename falls back to the generated
`fileName` when the server's is falsy. -/
def uploadAudio (uriToUpload : Option String) (apiUrl : Option String)
    (fileAccessible : Bool) (fileName : String) (outcome : FetchOutcome) :
    Except String UploadSuccessData :=
  match uriToUpload with
  | none => Except.error "No recording URI provided to upload."
  | some uri =>
    match apiUrl with
    | none => Except.error "API URL is not configured. Check .env file (needs EXPO_PUBLIC_ prefix)."
    | some _ =>
      if fileAccessible = false then
        Except.error ("Failed to access recording file: Recording file not found at URI: " ++ uri)
      else
        match outcome with
        | FetchOutcome.netError m => Except.error ("Upload failed: " ++ m)
        | FetchOutcome.response resp =>
          match resp.body with
          | none =>
            Except.error ("Upload failed: " ++ "Server returned non-JSON response (" ++
              toString resp.status ++ "): " ++ resp.rawText.take 100)
          | some responseData =>
            if resp.ok && truthyStr responseData.translation then
              Except.ok { filename := some (jsOr responseData.filename fileName),
                          translation := responseData.translation }
            else
              Except.error ("Upload failed: " ++ processedErrorDetail resp.status responseData.detail)

/-- Whether an upload result is the success case. -/
def uploadOk (r : Except String UploadSuccessData) : Bool :=
  match r with
  | Except.ok _ => true
  | Except.error _ => false

/-- `loadTranslations` from `src/unnamed/part_000` (the mount effect):
sets the storage-loading flag, reads the stored string; a missing entry
initializes `translations := []`; a present entry is `JSON.parse`d — the
parse is external, passed in as `parse`, with `none` standing for a throw —
and a parse failure sets the load error and initializes `translations := []`.
The store itself is never written or deleted here, and `finally` clears the
storage-loading flag in every path. -/
def loadTranslations (s : CoordState)
    (parse : String → Option (List TranslationItem)) : CoordState :=
  let s0 := { s with isStorageLoading := true }
  match s0.store with
  | none => { s0 with translations := [], isStorageLoading := false }
  | some v =>
    match parse v with
    | some items => { s0 with translations := items, isStorageLoading := false }
    | none =>
      { s0 with error := some "Could not load translation history.",
                translations := [], isStorageLoading := false }

/-- Rough model of `JSON.stringify` on one `TranslationItem`; C8 only needs
that saving writes some serialization of the current list. -/
def serializeItem (t : TranslationItem) : String :=
  "\x7b\"id\":\"" ++ t.id ++ "\",\"uri\":\"" ++ t.uri ++ "\"" ++
    (match t.filename with
     | none => ""
     | some f => ",\"filename\":\"" ++ f ++ "\"") ++
    (match t.translation with
     | none => ""
     | some tr => ",\"translation\":\"" ++ tr ++ "\"") ++ "\x7d"

/-- Rough model of `JSON.stringify` on the history list. -/
def serializeItems (ts : List TranslationItem) : String :=
  "[" ++ String.intercalate "," (ts.map serializeItem) ++ "]"

/-- The save effect from `src/unnamed/part_000` (the `useEffect` on
`[translations, isStorageLoading]`): while the initial load is outstanding
(`isStorageLoading`) it returns before touching the store; otherwise it
writes the serialized list, and a write failure (`saveOk = false`) is only
logged — the store and the error state are left unchanged. -/
def saveEffect (s : CoordState) (saveOk : Bool) : CoordState :=
  if s.isStorageLoading then s
  else if saveOk then { s with store := some (serializeItems s.translations) }
  else s

/-- The kinds of asynchronous status updates the playback service delivers
to the listener installed by `playAudio` (`setOnPlaybackStatusUpdate` in
`useAudioPlayer.ts`): an error (status not loaded with an error, which
clears `isPlaying` and the instance), a natural finish (`didJustFinish`,
which clears `isPlaying` but keeps the loaded instance), and an ordinary
progress update carrying the service's current `isPlaying`. -/
inductive Note where
  | errorNote
  | finishNote
  | progress
deriving Repr, DecidableEq

/-- Handling of one status update.  The listener is attached to the loaded
sound, so without an instance no update is delivered (modelled as a no-op);
`didJustFinish` can only be reported for a sound that was playing. -/
def statusNoteStep (s : CoordState) (n : Note) : CoordState :=
  if s.hasInstance = false then s
  else
    match n with
    | Note.errorNote =>
      { s with isPlaying := false, hasInstance := false, soundPlaying := false }
    | Note.finishNote =>
      if s.soundPlaying then { s with isPlaying := false, soundPlaying := false } else s
    | Note.progress => { s with isPlaying := s.soundPlaying }

/-- The `useEffect` on `[isPlaying]` in `src/unnamed/part_000`: whenever the
coordinator observes `isPlaying = false` it clears `currentlyPlayingUri`.
It is applied after every event step — one notification/render cycle. -/
def clearPlayingEffect (s : CoordState) : CoordState :=
  if s.isPlaying then s else { s with currentlyPlayingUri := none }

/-- One user gesture or environment event, carrying the outcomes of the
awaited external calls it performs. -/
inductive Event where
  | recordPress (stopRecOk : Bool) (recUri : Option String) (recErrMsg : String)
      (stopOk : Bool) (stopMsg : String)
      (permGranted : Bool) (startOk : Bool) (startMsg : String)
  | uploadPress (stopOk : Bool) (stopMsg : String)
      (uploadResult : Except String UploadSuccessData) (newId : String)
  | playLatest (stopOk : Bool) (stopMsg : String) (loadOk : Bool) (loadMsg : String)
  | playHistory (uri : String) (stopOk : Bool) (stopMsg : String)
      (loadOk : Bool) (loadMsg : String)
  | statusNote (n : Note)
  | loadDone (parse : String → Option (List TranslationItem))
  | saveTick (saveOk : Bool)

/-- Dispatch of one event to the handler it triggers, followed by the
render-cycle effect that clears `currentlyPlayingUri` when playback is no
longer reported active. -/
def step (s : CoordState) (e : Event) : CoordState :=
  clearPlayingEffect
    (match e with
     | Event.recordPress stopRecOk recUri recErrMsg stopOk stopMsg permGranted startOk startMsg =>
       handleRecordPress s stopRecOk recUri recErrMsg stopOk stopMsg permGranted startOk startMsg
     | Event.uploadPress stopOk stopMsg uploadResult newId =>
       handleUploadPress s stopOk stopMsg uploadResult newId
     | Event.playLatest stopOk stopMsg loadOk loadMsg =>
       handlePlaybackPress s stopOk stopMsg loadOk loadMsg
     | Event.playHistory uri stopOk stopMsg loadOk loadMsg =>
       handleHistoryItemPress s uri stopOk stopMsg loadOk loadMsg
     | Event.statusNote n => statusNoteStep s n
     | Event.loadDone parse => loadTranslations s parse
     | Event.saveTick saveOk => saveEffect s saveOk)

/-- A whole execution: fold the events over a state. -/
def run (s : CoordState) (es : List Event) : CoordState :=
  es.foldl step s

/-- The state of `HomeScreen` right after mount, before the initial storage
load has completed: every `useState` initializer from `src/unnamed/part_000`
(`isStorageLoading` starts `true`), over an arbitrary persisted store
content `store0`. -/
def initState (store0 : Option String) : CoordState :=
  { isRecording := false, hasRecording := false, recordingUri := none,
    translations := [], isLoading := false, error := none,
    isStorageLoading := true, currentlyPlayingUri := none,
    isPlaying := false, hasInstance := false, soundPlaying := false,
    isUploading := false, store := store0 }

/-- Reachable coordinator states: any sequence of events from some mount
state. -/
inductive Reach : CoordState → Prop where
  | init (store0 : Option String) : Reach (initState store0)
  | next {s : CoordState} (e : Event) : Reach s → Reach (step s e)

/-- The inductive playback invariant: the coordinator's playing reference is
set exactly when the last service report said playing; in settled states the
service-side truth agrees with the report; and a reported playing sound is a
held instance. -/
def PlayInv (s : CoordState) : Prop :=
  s.currentlyPlayingUri.isSome = s.isPlaying
    ∧ s.soundPlaying = s.isPlaying
    ∧ (s.isPlaying = true → s.hasInstance = true)

/-- What must hold of a handler's raw result, before the render-cycle effect
runs, for `PlayInv` to hold afterwards. -/
def MidInv (s : CoordState) : Prop :=
  s.soundPlaying = s.isPlaying
    ∧ (s.isPlaying = true → s.hasInstance = true)
    ∧ (s.isPlaying = true → s.currentlyPlayingUri.isSome = true)

/-- Both persistence-related fields: the external store content and the
initial-load-outstanding flag. -/
def SameStorage (s t : CoordState) : Prop :=
  t.store = s.store ∧ t.isStorageLoading = s.isStorageLoading

/-- Recognizer for the load-completion event. -/
def isLoadDoneEvent : Event → Bool
  | Event.loadDone _ => true
  | _ => false

/-- A mount state holding one finished recording, ready to upload. -/
def wUploadState : CoordState :=
  { initState none with recordingUri := some "file://rec1.m4a" }

/-- A mount state in which a history item is audibly playing and no
recording is pending. -/
def cexUploadPlaying : CoordState :=
  { (initState none) with
    isPlaying := true
    hasInstance := true
    soundPlaying := true
    currentlyPlayingUri := some "file://old.m4a" }

/-- A state in which the latest recording is both held and audibly playing. -/
def wPlayingState : CoordState :=
  { (initState none) with
    isPlaying := true
    hasInstance := true
    soundPlaying := true
    currentlyPlayingUri := some "file://h1.m4a"
    recordingUri := some "file://h1.m4a" }

theorem playInv_of_mid (s : CoordState) (h : MidInv s) :
    PlayInv (clearPlayingEffect s) := by
  obtain ⟨h1, h2, h3⟩ := h
  unfold clearPlayingEffect PlayInv
  by_cases hp : s.isPlaying = true
  · simp [hp, h1, h2 hp, h3 hp]
  · simp only [Bool.not_eq_true] at hp
    simp [hp, h1 ▸ hp, hp ▸ h1]

theorem midInv_of_playInv (s : CoordState) (h : PlayInv s) : MidInv s := by
  obtain ⟨h1, h2, h3⟩ := h
  exact ⟨h2, h3, fun hp => h1.trans hp⟩

theorem midInv_stopped (t : CoordState) (hp : t.isPlaying = false)
    (hs : t.soundPlaying = false) : MidInv t := by
  simp [MidInv, hp, hs]

theorem midInv_congr (s t : CoordState) (h : MidInv s)
    (e1 : t.isPlaying = s.isPlaying) (e2 : t.soundPlaying = s.soundPlaying)
    (e3 : t.hasInstance = s.hasInstance)
    (e4 : t.currentlyPlayingUri = s.currentlyPlayingUri) : MidInv t := by
  unfold MidInv at *
  rw [e1, e2, e3, e4]
  exact h

theorem stopPlaybackFn_midInv (s : CoordState) (ok : Bool) (m : String)
    (h : MidInv s) : MidInv (stopPlaybackFn s ok m).1 := by
  unfold stopPlaybackFn
  by_cases hi : s.hasInstance = false
  · simp [hi]
    exact h
  · simp [hi]
    cases ok <;> simp <;> exact midInv_stopped _ rfl rfl

theorem playAudioFn_spec (s0 : CoordState) (h : MidInv s0) (stopOk : Bool)
    (stopMsg : String) (loadOk : Bool) (loadMsg : String) :
    ((playAudioFn s0 stopOk stopMsg loadOk loadMsg).2 ≠ none →
      MidInv (playAudioFn s0 stopOk stopMsg loadOk loadMsg).1) ∧
    ((playAudioFn s0 stopOk stopMsg loadOk loadMsg).2 = none →
      (playAudioFn s0 stopOk stopMsg loadOk loadMsg).1.isPlaying = true ∧
      (playAudioFn s0 stopOk stopMsg loadOk loadMsg).1.soundPlaying = true ∧
      (playAudioFn s0 stopOk stopMsg loadOk loadMsg).1.hasInstance = true) := by
  obtain ⟨m1, m2, m3⟩ := h
  unfold playAudioFn stopPlaybackFn playLoad
  by_cases hp : s0.isPlaying = true <;> by_cases hi : s0.hasInstance = false <;>
    cases stopOk <;> cases loadOk <;> simp_all [MidInv]

theorem uploadCore_midInv (s1 : CoordState)
    (r : Except String UploadSuccessData) (newId : String) (h : MidInv s1) :
    MidInv (uploadCore s1 r newId) := by
  unfold uploadCore
  cases hr : s1.recordingUri with
  | none => exact h
  | some uri =>
    cases r with
    | ok d => exact midInv_congr s1 _ h rfl rfl rfl rfl
    | error m => exact midInv_congr s1 _ h rfl rfl rfl rfl

theorem startRecording_midInv (s : CoordState) (stopOk : Bool) (stopMsg : String)
    (permGranted : Bool) (startOk : Bool) (startMsg : String) (h : MidInv s) :
    MidInv (startRecording s stopOk stopMsg permGranted startOk startMsg) := by
  obtain ⟨m1, m2, m3⟩ := h
  unfold startRecording stopPlaybackFn
  by_cases hp : s.isPlaying = true <;> by_cases hi : s.hasInstance = false <;>
    cases stopOk <;> cases permGranted <;> cases startOk <;> simp_all [MidInv]

theorem stopRecording_midInv (s : CoordState) (stopRecOk : Bool)
    (recUri : Option String) (recErrMsg : String) (h : MidInv s) :
    MidInv (stopRecording s stopRecOk recUri recErrMsg) := by
  unfold stopRecording
  by_cases hr : s.hasRecording = false
  · simp [hr]
    exact h
  · simp [hr]
    cases stopRecOk <;> simp <;> exact midInv_congr s _ h rfl rfl rfl rfl

theorem handleRecordPress_midInv (s : CoordState)
    (stopRecOk : Bool) (recUri : Option String) (recErrMsg : String)
    (stopOk : Bool) (stopMsg : String)
    (permGranted : Bool) (startOk : Bool) (startMsg : String) (h : MidInv s) :
    MidInv (handleRecordPress s stopRecOk recUri recErrMsg stopOk stopMsg
      permGranted startOk startMsg) := by
  unfold handleRecordPress
  by_cases hrec : s.isRecording = true
  · simp [hrec]
    exact stopRecording_midInv s stopRecOk recUri recErrMsg h
  · simp only [Bool.not_eq_true] at hrec
    by_cases hp : s.isPlaying = true
    · simp [hrec, hp]
      rcases hst : stopPlaybackFn s stopOk stopMsg with ⟨s1, eo⟩
      have hms1 : MidInv s1 := by
        have hh := stopPlaybackFn_midInv s stopOk stopMsg h
        rw [hst] at hh
        exact hh
      cases eo with
      | none => exact startRecording_midInv s1 stopOk stopMsg permGranted startOk startMsg hms1
      | some e => exact midInv_congr s1 _ hms1 rfl rfl rfl rfl
    · simp only [Bool.not_eq_true] at hp
      simp [hrec, hp]
      exact startRecording_midInv s stopOk stopMsg permGranted startOk startMsg h

theorem handleUploadPress_midInv (s : CoordState) (stopOk : Bool) (stopMsg : String)
    (uploadResult : Except String UploadSuccessData) (newId : String)
    (h : MidInv s) :
    MidInv (handleUploadPress s stopOk stopMsg uploadResult newId) := by
  unfold handleUploadPress
  by_cases hp : s.isPlaying = true
  · simp [hp]
    rcases hst : stopPlaybackFn s stopOk stopMsg with ⟨s1, eo⟩
    have hms1 : MidInv s1 := by
      have hh := stopPlaybackFn_midInv s stopOk stopMsg h
      rw [hst] at hh
      exact hh
    cases eo with
    | none => exact uploadCore_midInv s1 uploadResult newId hms1
    | some e => exact midInv_congr s1 _ hms1 rfl rfl rfl rfl
  · simp only [Bool.not_eq_true] at hp
    simp [hp]
    exact uploadCore_midInv s uploadResult newId h

theorem toggle_stop_midInv (s0 : CoordState) (stopOk : Bool) (stopMsg : String)
    (h0 : MidInv s0) :
    MidInv (match stopPlaybackFn s0 stopOk stopMsg with
            | (s1, some e) => { s1 with error := some e }
            | (s1, none) => s1) := by
  rcases hst : stopPlaybackFn s0 stopOk stopMsg with ⟨s1, eo⟩
  have hms1 : MidInv s1 := by
    have hh := stopPlaybackFn_midInv s0 stopOk stopMsg h0
    rw [hst] at hh
    exact hh
  cases eo with
  | none => exact hms1
  | some e => exact midInv_congr s1 _ hms1 rfl rfl rfl rfl

theorem play_branch_midInv (s0 : CoordState) (uri : String) (stopOk : Bool)
    (stopMsg : String) (loadOk : Bool) (loadMsg : String) (h0 : MidInv s0) :
    MidInv (match playAudioFn s0 stopOk stopMsg loadOk loadMsg with
            | (s1, some e) => { s1 with error := some e }
            | (s1, none) => { s1 with currentlyPlayingUri := some uri }) := by
  rcases hst : playAudioFn s0 stopOk stopMsg loadOk loadMsg with ⟨s1, eo⟩
  have hsp := playAudioFn_spec s0 h0 stopOk stopMsg loadOk loadMsg
  rw [hst] at hsp
  dsimp only at hsp
  cases eo with
  | some e => exact midInv_congr s1 _ (hsp.1 (by simp)) rfl rfl rfl rfl
  | none =>
    obtain ⟨p1, p2, p3⟩ := hsp.2 rfl
    simp [MidInv, p1, p2, p3]

theorem handleHistoryItemPress_midInv (s : CoordState) (uri : String)
    (stopOk : Bool) (stopMsg : String) (loadOk : Bool) (loadMsg : String)
    (h : MidInv s) :
    MidInv (handleHistoryItemPress s uri stopOk stopMsg loadOk loadMsg) := by
  unfold handleHistoryItemPress
  by_cases hu : uri = ""
  · simp [hu]
    exact h
  · simp only [hu, if_false]
    have h0 : MidInv { s with error := (none : Option String) } :=
      midInv_congr s _ h rfl rfl rfl rfl
    split
    · exact toggle_stop_midInv _ stopOk stopMsg h0
    · exact play_branch_midInv _ uri stopOk stopMsg loadOk loadMsg h0

theorem handlePlaybackPress_midInv (s : CoordState)
    (stopOk : Bool) (stopMsg : String) (loadOk : Bool) (loadMsg : String)
    (h : MidInv s) :
    MidInv (handlePlaybackPress s stopOk stopMsg loadOk loadMsg) := by
  unfold handlePlaybackPress
  dsimp only
  have h0 : MidInv { s with error := (none : Option String) } :=
    midInv_congr s _ h rfl rfl rfl rfl
  split
  · exact toggle_stop_midInv _ stopOk stopMsg h0
  · split
    · exact h0
    · exact play_branch_midInv _ _ stopOk stopMsg loadOk loadMsg h0

theorem statusNoteStep_midInv (s : CoordState) (n : Note) (h : MidInv s) :
    MidInv (statusNoteStep s n) := by
  obtain ⟨m1, m2, m3⟩ := h
  unfold statusNoteStep
  by_cases hi : s.hasInstance = false
  · simp [hi]
    exact ⟨m1, m2, m3⟩
  · cases n <;> by_cases hsp : s.soundPlaying = true <;> simp_all [MidInv]

theorem loadTranslations_midInv (s : CoordState)
    (parse : String → Option (List TranslationItem)) (h : MidInv s) :
    MidInv (loadTranslations s parse) := by
  unfold loadTranslations
  dsimp only
  cases hst : s.store with
  | none =>
    simp only [hst]
    exact midInv_congr s _ h rfl rfl rfl rfl
  | some v =>
    simp only [hst]
    cases parse v with
    | none => exact midInv_congr s _ h rfl rfl rfl rfl
    | some items => exact midInv_congr s _ h rfl rfl rfl rfl

theorem saveEffect_midInv (s : CoordState) (saveOk : Bool) (h : MidInv s) :
    MidInv (saveEffect s saveOk) := by
  unfold saveEffect
  split
  · exact h
  · split
    · exact midInv_congr s _ h rfl rfl rfl rfl
    · exact h

theorem playInv_step (s : CoordState) (e : Event) (h : PlayInv s) :
    PlayInv (step s e) := by
  have hm : MidInv s := midInv_of_playInv s h
  unfold step
  apply playInv_of_mid
  cases e with
  | recordPress stopRecOk recUri recErrMsg stopOk stopMsg permGranted startOk startMsg =>
    exact handleRecordPress_midInv s stopRecOk recUri recErrMsg stopOk stopMsg
      permGranted startOk startMsg hm
  | uploadPress stopOk stopMsg uploadResult newId =>
    exact handleUploadPress_midInv s stopOk stopMsg uploadResult newId hm
  | playLatest stopOk stopMsg loadOk loadMsg =>
    exact handlePlaybackPress_midInv s stopOk stopMsg loadOk loadMsg hm
  | playHistory uri stopOk stopMsg loadOk loadMsg =>
    exact handleHistoryItemPress_midInv s uri stopOk stopMsg loadOk loadMsg hm
  | statusNote n => exact statusNoteStep_midInv s n hm
  | loadDone parse => exact loadTranslations_midInv s parse hm
  | saveTick saveOk => exact saveEffect_midInv s saveOk hm

theorem playInv_reach (s : CoordState) (h : Reach s) : PlayInv s := by
  induction h with
  | init store0 => simp [PlayInv, initState]
  | next e _ ih => exact playInv_step _ e ih

theorem sameStorage_stopPlaybackFn (s : CoordState) (ok : Bool) (m : String) :
    SameStorage s (stopPlaybackFn s ok m).1 := by
  unfold stopPlaybackFn
  by_cases hi : s.hasInstance = false <;> cases ok <;> simp [hi, SameStorage]

theorem sameStorage_playAudioFn (s : CoordState) (stopOk : Bool) (stopMsg : String)
    (loadOk : Bool) (loadMsg : String) :
    SameStorage s (playAudioFn s stopOk stopMsg loadOk loadMsg).1 := by
  unfold playAudioFn stopPlaybackFn playLoad
  by_cases hp : s.isPlaying = true <;> by_cases hi : s.hasInstance = false <;>
    cases stopOk <;> cases loadOk <;> simp [hp, hi, SameStorage]

theorem sameStorage_statusNote (s : CoordState) (n : Note) :
    SameStorage s (statusNoteStep s n) := by
  unfold statusNoteStep
  by_cases hi : s.hasInstance = false <;> cases n <;>
    by_cases hs : s.soundPlaying = true <;> simp [hi, hs, SameStorage]

theorem sameStorage_stopRecording (s : CoordState) (ok : Bool)
    (recUri : Option String) (m : String) :
    SameStorage s (stopRecording s ok recUri m) := by
  unfold stopRecording
  by_cases hr : s.hasRecording = false <;> cases ok <;> simp [hr, SameStorage]

theorem sameStorage_startRecording (s : CoordState) (stopOk : Bool)
    (stopMsg : String) (permGranted : Bool) (startOk : Bool) (startMsg : String) :
    SameStorage s (startRecording s stopOk stopMsg permGranted startOk startMsg) := by
  unfold startRecording stopPlaybackFn
  by_cases hp : s.isPlaying = true <;> by_cases hi : s.hasInstance = false <;>
    cases stopOk <;> cases permGranted <;> cases startOk <;>
    simp [hp, hi, SameStorage]

theorem sameStorage_uploadCore (s : CoordState)
    (r : Except String UploadSuccessData) (newId : String) :
    SameStorage s (uploadCore s r newId) := by
  unfold uploadCore
  cases hu : s.recordingUri <;> cases r <;> simp [hu, SameStorage]

theorem sameStorage_clearEffect (s : CoordState) :
    SameStorage s (clearPlayingEffect s) := by
  unfold clearPlayingEffect
  by_cases hp : s.isPlaying = true <;> simp [hp, SameStorage]

theorem sameStorage_trans {s t u : CoordState} (h1 : SameStorage s t)
    (h2 : SameStorage t u) : SameStorage s u :=
  ⟨h2.1.trans h1.1, h2.2.trans h1.2⟩

theorem sameStorage_setError (t : CoordState) (e : Option String) :
    SameStorage t { t with error := e } := ⟨rfl, rfl⟩

theorem sameStorage_handleRecordPress (s : CoordState)
    (stopRecOk : Bool) (recUri : Option String) (recErrMsg : String)
    (stopOk : Bool) (stopMsg : String)
    (permGranted : Bool) (startOk : Bool) (startMsg : String) :
    SameStorage s (handleRecordPress s stopRecOk recUri recErrMsg stopOk stopMsg
      permGranted startOk startMsg) := by
  unfold handleRecordPress
  by_cases hrec : s.isRecording = true
  · simp [hrec]
    exact sameStorage_stopRecording s stopRecOk recUri recErrMsg
  · simp only [Bool.not_eq_true] at hrec
    by_cases hp : s.isPlaying = true
    · simp [hrec, hp]
      rcases hst : stopPlaybackFn s stopOk stopMsg with ⟨s1, eo⟩
      have hss : SameStorage s s1 := by
        have hh := sameStorage_stopPlaybackFn s stopOk stopMsg
        rw [hst] at hh
        exact hh
      cases eo with
      | none =>
        exact sameStorage_trans hss
          (sameStorage_startRecording s1 stopOk stopMsg permGranted startOk startMsg)
      | some e => exact sameStorage_trans hss (sameStorage_setError s1 _)
    · simp only [Bool.not_eq_true] at hp
      simp [hrec, hp]
      exact sameStorage_startRecording s stopOk stopMsg permGranted startOk startMsg

theorem sameStorage_handleUploadPress (s : CoordState) (stopOk : Bool)
    (stopMsg : String) (uploadResult : Except String UploadSuccessData)
    (newId : String) :
    SameStorage s (handleUploadPress s stopOk stopMsg uploadResult newId) := by
  unfold handleUploadPress
  by_cases hp : s.isPlaying = true
  · simp [hp]
    rcases hst : stopPlaybackFn s stopOk stopMsg with ⟨s1, eo⟩
    have hss : SameStorage s s1 := by
      have hh := sameStorage_stopPlaybackFn s stopOk stopMsg
      rw [hst] at hh
      exact hh
    cases eo with
    | none => exact sameStorage_trans hss (sameStorage_uploadCore s1 uploadResult newId)
    | some e => exact sameStorage_trans hss (sameStorage_setError s1 _)
  · simp only [Bool.not_eq_true] at hp
    simp [hp]
    exact sameStorage_uploadCore s uploadResult newId

theorem sameStorage_playBranch (s0 : CoordState) (uri : String) (stopOk : Bool)
    (stopMsg : String) (loadOk : Bool) (loadMsg : String) :
    SameStorage s0
      (match playAudioFn s0 stopOk stopMsg loadOk loadMsg with
       | (s1, some e) => { s1 with error := some e }
       | (s1, none) => { s1 with currentlyPlayingUri := some uri }) := by
  rcases hst : playAudioFn s0 stopOk stopMsg loadOk loadMsg with ⟨s1, eo⟩
  have hss : SameStorage s0 s1 := by
    have hh := sameStorage_playAudioFn s0 stopOk stopMsg loadOk loadMsg
    rw [hst] at hh
    exact hh
  cases eo with
  | none => exact sameStorage_trans hss ⟨rfl, rfl⟩
  | some e => exact sameStorage_trans hss (sameStorage_setError s1 _)

theorem sameStorage_toggleStop (s0 : CoordState) (stopOk : Bool) (stopMsg : String) :
    SameStorage s0
      (match stopPlaybackFn s0 stopOk stopMsg with
       | (s1, some e) => { s1 with error := some e }
       | (s1, none) => s1) := by
  rcases hst : stopPlaybackFn s0 stopOk stopMsg with ⟨s1, eo⟩
  have hss : SameStorage s0 s1 := by
    have hh := sameStorage_stopPlaybackFn s0 stopOk stopMsg
    rw [hst] at hh
    exact hh
  cases eo with
  | none => exact hss
  | some e => exact sameStorage_trans hss (sameStorage_setError s1 _)

theorem sameStorage_handleHistoryItemPress (s : CoordState) (uri : String)
    (stopOk : Bool) (stopMsg : String) (loadOk : Bool) (loadMsg : String) :
    SameStorage s (handleHistoryItemPress s uri stopOk stopMsg loadOk loadMsg) := by
  unfold handleHistoryItemPress
  by_cases hu : uri = ""
  · simp [hu, SameStorage]
  · simp only [hu, if_false]
    have h0 : SameStorage s { s with error := (none : Option String) } := ⟨rfl, rfl⟩
    split
    · exact sameStorage_trans h0 (sameStorage_toggleStop _ stopOk stopMsg)
    · exact sameStorage_trans h0 (sameStorage_playBranch _ uri stopOk stopMsg loadOk loadMsg)

theorem sameStorage_handlePlaybackPress (s : CoordState)
    (stopOk : Bool) (stopMsg : String) (loadOk : Bool) (loadMsg : String) :
    SameStorage s (handlePlaybackPress s stopOk stopMsg loadOk loadMsg) := by
  unfold handlePlaybackPress
  dsimp only
  have h0 : SameStorage s { s with error := (none : Option String) } := ⟨rfl, rfl⟩
  split
  · exact sameStorage_trans h0 (sameStorage_toggleStop _ stopOk stopMsg)
  · split
    · exact h0
    · exact sameStorage_trans h0 (sameStorage_playBranch _ _ stopOk stopMsg loadOk loadMsg)

theorem sameStorage_saveTick_loading (s : CoordState) (saveOk : Bool)
    (hl : s.isStorageLoading = true) : SameStorage s (saveEffect s saveOk) := by
  unfold saveEffect
  simp [hl, SameStorage]

theorem step_sameStorage_before_load (s : CoordState) (e : Event)
    (hnl : isLoadDoneEvent e = false) (hl : s.isStorageLoading = true) :
    SameStorage s (step s e) := by
  unfold step
  cases e with
  | recordPress stopRecOk recUri recErrMsg stopOk stopMsg permGranted startOk startMsg =>
    exact sameStorage_trans
      (sameStorage_handleRecordPress s stopRecOk recUri recErrMsg stopOk stopMsg
        permGranted startOk startMsg) (sameStorage_clearEffect _)
  | uploadPress stopOk stopMsg uploadResult newId =>
    exact sameStorage_trans
      (sameStorage_handleUploadPress s stopOk stopMsg uploadResult newId)
      (sameStorage_clearEffect _)
  | playLatest stopOk stopMsg loadOk loadMsg =>
    exact sameStorage_trans
      (sameStorage_handlePlaybackPress s stopOk stopMsg loadOk loadMsg)
      (sameStorage_clearEffect _)
  | playHistory uri stopOk stopMsg loadOk loadMsg =>
    exact sameStorage_trans
      (sameStorage_handleHistoryItemPress s uri stopOk stopMsg loadOk loadMsg)
      (sameStorage_clearEffect _)
  | statusNote n =>
    exact sameStorage_trans (sameStorage_statusNote s n) (sameStorage_clearEffect _)
  | loadDone parse => simp [isLoadDoneEvent] at hnl
  | saveTick saveOk =>
    exact sameStorage_trans (sameStorage_saveTick_loading s saveOk hl)
      (sameStorage_clearEffect _)

theorem run_sameStorage_before_load (es : List Event) (s : CoordState)
    (hnl : ∀ e ∈ es, isLoadDoneEvent e = false) (hl : s.isStorageLoading = true) :
    SameStorage s (run s es) := by
  induction es generalizing s with
  | nil => exact ⟨rfl, rfl⟩
  | cons e es ih =>
    have h1 : SameStorage s (step s e) :=
      step_sameStorage_before_load s e (hnl e (List.mem_cons_self e es)) hl
    have h2 : SameStorage (step s e) (run (step s e) es) :=
      ih (step s e) (fun x hx => hnl x (List.mem_cons_of_mem e hx)) (h1.2.trans hl)
    exact sameStorage_trans h1 h2

/-- C1: when `latestRecordingReference` is a non-null reference `r`, a
successful upload prepends exactly one new `TranslationItem` whose source
reference (`uri`) is `r` to the front of `history`, leaves every
pre-existing item unchanged and in order, and clears
`latestRecordingReference` to null. -/
theorem upload_success_prepends (s : CoordState) (r : String)
    (d : UploadSuccessData) (stopOk : Bool) (stopMsg newId : String)
    (h1 : s.recordingUri = some r) (h2 : s.isPlaying = true → stopOk = true) :
    (handleUploadPress s stopOk stopMsg (Except.ok d) newId).translations =
      { id := newId, filename := d.filename, translation := d.translation,
        uri := r } :: s.translations
    ∧ (handleUploadPress s stopOk stopMsg (Except.ok d) newId).recordingUri = none := by
  unfold handleUploadPress uploadCore stopPlaybackFn
  by_cases hp : s.isPlaying = true
  · have hok := h2 hp
    subst hok
    by_cases hi : s.hasInstance = false <;> simp [hp, hi, h1]
  · simp only [Bool.not_eq_true] at hp
    simp [hp, h1]

/-- Witness for C1 at a concrete ready-to-upload state. -/
theorem upload_success_prepends_witness :
    (handleUploadPress wUploadState true ""
        (Except.ok { filename := some "a.m4a", translation := some "Woof" })
        "t1").translations =
      { id := "t1", filename := some "a.m4a", translation := some "Woof",
        uri := "file://rec1.m4a" } :: wUploadState.translations
    ∧ (handleUploadPress wUploadState true ""
        (Except.ok { filename := some "a.m4a", translation := some "Woof" })
        "t1").recordingUri = none :=
  upload_success_prepends wUploadState "file://rec1.m4a"
    { filename := some "a.m4a", translation := some "Woof" } true "" "t1"
    rfl (fun _ => rfl)

/-- C2: when `latestRecordingReference` is non-null, a failed upload leaves
`history` and `latestRecordingReference` unchanged and sets `lastError` to a
non-empty message; the busy (`isLoading`) and uploading flags end up cleared
whether the upload failed or succeeded. -/
theorem upload_failure_preserves (s : CoordState) (r m : String)
    (d : UploadSuccessData) (stopOk : Bool) (stopMsg newId : String)
    (h1 : s.recordingUri = some r) (h2 : s.isPlaying = true → stopOk = true) :
    (handleUploadPress s stopOk stopMsg (Except.error m) newId).translations = s.translations
    ∧ (handleUploadPress s stopOk stopMsg (Except.error m) newId).recordingUri = some r
    ∧ (∃ msg, (handleUploadPress s stopOk stopMsg (Except.error m) newId).error = some msg
        ∧ msg ≠ "")
    ∧ (handleUploadPress s stopOk stopMsg (Except.error m) newId).isLoading = false
    ∧ (handleUploadPress s stopOk stopMsg (Except.error m) newId).isUploading = false
    ∧ (handleUploadPress s stopOk stopMsg (Except.ok d) newId).isLoading = false
    ∧ (handleUploadPress s stopOk stopMsg (Except.ok d) newId).isUploading = false := by
  have hmsg : (if m = "" then "An unknown upload error occurred." else m) ≠ "" := by
    by_cases hm : m = ""
    · simp only [hm, if_pos]
      decide
    · simp [hm]
  unfold handleUploadPress uploadCore stopPlaybackFn
  by_cases hp : s.isPlaying = true
  · have hok := h2 hp
    subst hok
    by_cases hi : s.hasInstance = false <;> simp [hp, hi, h1] <;> exact hmsg
  · simp only [Bool.not_eq_true] at hp
    simp [hp, h1]
    exact hmsg

/-- Witness for C2 at a concrete ready-to-upload state. -/
theorem upload_failure_preserves_witness :
    (handleUploadPress wUploadState true "" (Except.error "boom") "t1").translations =
      wUploadState.translations
    ∧ (handleUploadPress wUploadState true "" (Except.error "boom") "t1").recordingUri =
        some "file://rec1.m4a"
    ∧ (∃ msg, (handleUploadPress wUploadState true "" (Except.error "boom") "t1").error =
        some msg ∧ msg ≠ "")
    ∧ (handleUploadPress wUploadState true "" (Except.error "boom") "t1").isLoading = false
    ∧ (handleUploadPress wUploadState true "" (Except.error "boom") "t1").isUploading = false
    ∧ (handleUploadPress wUploadState true ""
        (Except.ok { filename := none, translation := some "Woof" }) "t1").isLoading = false
    ∧ (handleUploadPress wUploadState true ""
        (Except.ok { filename := none, translation := some "Woof" }) "t1").isUploading = false :=
  upload_failure_preserves wUploadState "file://rec1.m4a" "boom"
    { filename := none, translation := some "Woof" } true "" "t1" rfl (fun _ => rfl)

/-- Counterexample to C3 as stated: with `latestRecordingReference` null but
playback active, `upload()` is not a no-op — it stops the active playback
(the playback-stop block runs before the null-reference guard). -/
theorem upload_noop_cex :
    cexUploadPlaying.recordingUri = none
    ∧ cexUploadPlaying.isPlaying = true
    ∧ (handleUploadPress cexUploadPlaying true "" (Except.error "e") "t").isPlaying = false
    ∧ handleUploadPress cexUploadPlaying true "" (Except.error "e") "t" ≠ cexUploadPlaying := by
  decide

/-- C3 amended: when `latestRecordingReference` is null and playback is not
active, `upload()` is a no-op — the state is returned unchanged, and the
only effect is the user-visible "nothing to upload" alert.  (When playback
is active, the code stops it before reaching the null-reference guard, so
the playback state does change.) -/
theorem upload_noop_when_idle (s : CoordState) (stopOk : Bool)
    (stopMsg newId : String) (res : Except String UploadSuccessData)
    (h1 : s.recordingUri = none) (h2 : s.isPlaying = false) :
    handleUploadPress s stopOk stopMsg res newId = s := by
  unfold handleUploadPress uploadCore
  simp [h1, h2]

/-- Witness for the amended C3 at the freshly mounted state. -/
theorem upload_noop_when_idle_witness :
    handleUploadPress (initState none) true "" (Except.error "x") "t" = initState none :=
  upload_noop_when_idle (initState none) true "" "t" (Except.error "x") rfl rfl

/-- C4: for a reference `a` that is currently the playing reference, a press
on it (history-item handler, and the latest-recording handler when `a` is
the latest recording) stops playback rather than restarting it: afterwards
nothing is reported playing, the instance is unloaded and the service-side
sound is silent, whatever the stop call's own outcome. -/
theorem play_same_reference_stops (s : CoordState) (a : String)
    (stopOk : Bool) (stopMsg : String) (loadOk : Bool) (loadMsg : String)
    (h1 : s.isPlaying = true) (h2 : s.currentlyPlayingUri = some a)
    (h3 : s.hasInstance = true) (h4 : a ≠ "") :
    (handleHistoryItemPress s a stopOk stopMsg loadOk loadMsg).isPlaying = false
    ∧ (handleHistoryItemPress s a stopOk stopMsg loadOk loadMsg).hasInstance = false
    ∧ (handleHistoryItemPress s a stopOk stopMsg loadOk loadMsg).soundPlaying = false
    ∧ (s.recordingUri = some a →
        (handlePlaybackPress s stopOk stopMsg loadOk loadMsg).isPlaying = false
        ∧ (handlePlaybackPress s stopOk stopMsg loadOk loadMsg).hasInstance = false) := by
  have hhist :
      (handleHistoryItemPress s a stopOk stopMsg loadOk loadMsg).isPlaying = false
      ∧ (handleHistoryItemPress s a stopOk stopMsg loadOk loadMsg).hasInstance = false
      ∧ (handleHistoryItemPress s a stopOk stopMsg loadOk loadMsg).soundPlaying = false := by
    unfold handleHistoryItemPress stopPlaybackFn
    cases stopOk <;> simp [h1, h2, h3, h4]
  refine ⟨hhist.1, hhist.2.1, hhist.2.2, fun hr => ?_⟩
  unfold handlePlaybackPress stopPlaybackFn
  cases stopOk <;> simp [h1, h2, h3, hr]

/-- Witness for C4 at a state playing the latest recording. -/
theorem play_same_reference_stops_witness :
    (handleHistoryItemPress wPlayingState "file://h1.m4a" true "" true "").isPlaying = false
    ∧ (handleHistoryItemPress wPlayingState "file://h1.m4a" true "" true "").hasInstance = false
    ∧ (handleHistoryItemPress wPlayingState "file://h1.m4a" true "" true "").soundPlaying = false
    ∧ (wPlayingState.recordingUri = some "file://h1.m4a" →
        (handlePlaybackPress wPlayingState true "" true "").isPlaying = false
        ∧ (handlePlaybackPress wPlayingState true "" true "").hasInstance = false) :=
  play_same_reference_stops wPlayingState "file://h1.m4a" true "" true ""
    rfl rfl rfl (by decide)

/-- Counterexample to C5 as stated: calling `startRecording` directly while
playback is active, with a failing playback stop, records the stop error in
`lastError` but still proceeds to start recording — the source deliberately
does not return after the failed stop. -/
theorem startRecording_stopfail_cex :
    wPlayingState.isPlaying = true
    ∧ (startRecording wPlayingState false "boom" true true "").isRecording = true
    ∧ (startRecording wPlayingState false "boom" true true "").error =
        some "Failed to stop previous playback: Stop Playback Failed: boom" := by
  decide

/-- C5 amended: while playback is active, `toggleRecording`
(`handleRecordPress` when not recording) stops playback first and starts
recording only from the state in which the stop has already resolved; if
the stop fails the error is recorded and recording never starts.
`startRecording` invoked directly also stops playback first and records a
stop failure in `lastError`, but then proceeds to start recording anyway. -/
theorem toggleRecording_stop_ordering (s : CoordState)
    (stopRecOk : Bool) (recUri : Option String) (recErrMsg : String)
    (stopMsg : String) (permGranted : Bool) (startOk : Bool) (startMsg : String)
    (h1 : s.isRecording = false) (h2 : s.isPlaying = true)
    (h3 : s.hasInstance = true) :
    ((handleRecordPress s stopRecOk recUri recErrMsg false stopMsg permGranted
        startOk startMsg).isRecording = false
      ∧ (handleRecordPress s stopRecOk recUri recErrMsg false stopMsg permGranted
          startOk startMsg).error =
          some ("Stop Playback Failed: " ++ ("Stop Playback Failed: " ++ stopMsg))
      ∧ (handleRecordPress s stopRecOk recUri recErrMsg false stopMsg permGranted
          startOk startMsg).isPlaying = false)
    ∧ handleRecordPress s stopRecOk recUri recErrMsg true stopMsg permGranted
        startOk startMsg =
        startRecording
          { s with isPlaying := false, hasInstance := false, soundPlaying := false }
          true stopMsg permGranted startOk startMsg
    ∧ ((startRecording s false stopMsg true true startMsg).isRecording = true
      ∧ (startRecording s false stopMsg true true startMsg).error =
          some ("Failed to stop previous playback: " ++
            ("Stop Playback Failed: " ++ stopMsg))) := by
  refine ⟨?_, ?_, ?_⟩
  · unfold handleRecordPress stopPlaybackFn
    simp [h1, h2, h3]
  · unfold handleRecordPress stopPlaybackFn
    simp [h1, h2, h3]
  · unfold startRecording stopPlaybackFn
    simp [h2, h3]

/-- Witness for the amended C5 at a state playing the latest recording. -/
theorem toggleRecording_stop_ordering_witness :
    ((handleRecordPress wPlayingState true none "" false "boom" true true "").isRecording = false
      ∧ (handleRecordPress wPlayingState true none "" false "boom" true true "").error =
          some ("Stop Playback Failed: " ++ ("Stop Playback Failed: " ++ "boom"))
      ∧ (handleRecordPress wPlayingState true none "" false "boom" true true "").isPlaying = false)
    ∧ handleRecordPress wPlayingState true none "" true "boom" true true "" =
        startRecording
          { wPlayingState with
            isPlaying := false
            hasInstance := false
            soundPlaying := false } true "boom" true true ""
    ∧ ((startRecording wPlayingState false "boom" true true "").isRecording = true
      ∧ (startRecording wPlayingState false "boom" true true "").error =
          some ("Failed to stop previous playback: " ++
            ("Stop Playback Failed: " ++ "boom"))) :=
  toggleRecording_stop_ordering wPlayingState true none "" "boom" true true ""
    rfl rfl rfl

/-- C6: in every reachable state, `currentlyPlayingReference` is non-null
exactly when the playback service's last report said playback is active;
and after an error or natural-finish notification from the service, it is
null within the one render cycle that follows the notification.  (After an
explicit stop inside a handler the same clearing happens inside that very
step, which is covered by the iff applied to the resulting reachable
state.) -/
theorem currently_playing_iff_service (s : CoordState) (h : Reach s) :
    (s.currentlyPlayingUri ≠ none ↔ s.isPlaying = true)
    ∧ (step s (Event.statusNote Note.errorNote)).currentlyPlayingUri = none
    ∧ (step s (Event.statusNote Note.finishNote)).currentlyPlayingUri = none := by
  obtain ⟨h1, h2, h3⟩ := playInv_reach s h
  refine ⟨?_, ?_, ?_⟩
  · rw [Option.ne_none_iff_isSome, h1]
  · unfold step statusNoteStep clearPlayingEffect
    by_cases hp : s.isPlaying = true
    · have hi := h3 hp
      simp [hi, hp]
    · simp only [Bool.not_eq_true] at hp
      by_cases hi : s.hasInstance = false <;> simp [hi, hp]
  · unfold step statusNoteStep clearPlayingEffect
    by_cases hp : s.isPlaying = true
    · have hi := h3 hp
      have hsp : s.soundPlaying = true := h2.trans hp
      simp [hi, hp, hsp]
    · simp only [Bool.not_eq_true] at hp
      by_cases hi : s.hasInstance = false
      · simp [hi, hp]
      · have hsp : s.soundPlaying = false := h2.trans hp
        simp [hi, hp, hsp]

/-- Witness for C6 at the freshly mounted (reachable) state. -/
theorem currently_playing_iff_service_witness :
    ((initState none).currentlyPlayingUri ≠ none ↔ (initState none).isPlaying = true)
    ∧ (step (initState none) (Event.statusNote Note.errorNote)).currentlyPlayingUri = none
    ∧ (step (initState none) (Event.statusNote Note.finishNote)).currentlyPlayingUri = none :=
  currently_playing_iff_service (initState none) (Reach.init none)

/-- Counterexample to C7 as stated: a response with HTTP success status
whose JSON body does contain a `translation` field — but an empty one — is
treated as a failure, because the code tests the field for JS truthiness,
not mere presence. -/
theorem upload_success_definition_cex :
    ({ ok := true, status := 200,
       body := some { translation := some "", filename := none, detail := none },
       rawText := "" } : ServerResponse).ok = true
    ∧ ({ translation := some "", filename := none, detail := none } :
        ResponseBody).translation.isSome = true
    ∧ uploadAudio (some "file://a.m4a") (some "http://api.test/upload") true
        "recording-1.m4a"
        (FetchOutcome.response
          { ok := true, status := 200,
            body := some { translation := some "", filename := none, detail := none },
            rawText := "" }) =
      Except.error "Upload failed: Server error: 200" := by
  refine ⟨rfl, rfl, rfl⟩

/-- C7 amended: with a usable reference, configured endpoint and accessible
file, the upload treats a server response as a success exactly when it has
an HTTP success status and its JSON body contains a non-empty `translation`
field; any other response (including a success status whose `translation`
is absent or empty) raises an error. -/
theorem upload_success_iff (uri apiUrl fileName : String) (resp : ServerResponse) :
    uploadOk (uploadAudio (some uri) (some apiUrl) true fileName
      (FetchOutcome.response resp)) = true
    ↔ (resp.ok = true ∧ ∃ rb, resp.body = some rb
        ∧ ∃ t, rb.translation = some t ∧ t ≠ "") := by
  unfold uploadAudio uploadOk truthyStr
  cases hb : resp.body with
  | none => simp [hb]
  | some rb =>
    cases ht : rb.translation with
    | none => simp [hb, ht]
    | some t =>
      by_cases hts : t = "" <;> cases hok : resp.ok <;> simp [hb, ht, hts, hok]

/-- C8: in the execution model, as long as the load-completion event has
not occurred, every event sequence leaves the persistent store untouched
and the load-outstanding flag asserted (so no save is attempted before the
initial load completes); and completing the load on an empty store yields
an empty history. -/
theorem no_save_before_load_completes (store0 : Option String) (es : List Event)
    (parse : String → Option (List TranslationItem))
    (h : ∀ e ∈ es, isLoadDoneEvent e = false) :
    (run (initState store0) es).store = store0
    ∧ (run (initState store0) es).isStorageLoading = true
    ∧ (store0 = none →
        (step (initState store0) (Event.loadDone parse)).translations = []
        ∧ (step (initState store0) (Event.loadDone parse)).isStorageLoading = false) := by
  have hrun := run_sameStorage_before_load es (initState store0) h rfl
  refine ⟨hrun.1, hrun.2.trans rfl, fun h0 => ?_⟩
  subst h0
  exact ⟨rfl, rfl⟩

/-- Witness for C8: a save trigger and a user gesture before the load
completes change nothing in the store. -/
theorem no_save_before_load_completes_witness :
    (∀ e ∈ [Event.saveTick true, Event.statusNote Note.progress],
      isLoadDoneEvent e = false)
    ∧ ((run (initState none) [Event.saveTick true, Event.statusNote Note.progress]).store = none
      ∧ (run (initState none) [Event.saveTick true, Event.statusNote Note.progress]).isStorageLoading = true
      ∧ ((none : Option String) = none →
          (step (initState none) (Event.loadDone (fun _ => none))).translations = []
          ∧ (step (initState none) (Event.loadDone (fun _ => none))).isStorageLoading = false)) :=
  ⟨by
    intro e he
    simp only [List.mem_cons, List.not_mem_nil, or_false] at he
    rcases he with rfl | rfl <;> rfl,
   no_save_before_load_completes none
     [Event.saveTick true, Event.statusNote Note.progress] (fun _ => none)
     (by
      intro e he
      simp only [List.mem_cons, List.not_mem_nil, or_false] at he
      rcases he with rfl | rfl <;> rfl)⟩

/-- C9: a stored value that fails to deserialize leaves the load total (no
crash — the model is a total function), yields an empty history, surfaces
the load error, does not delete the corrupt entry from the store, and
clears the load-outstanding flag. -/
theorem load_corrupt_store (s : CoordState) (v : String)
    (parse : String → Option (List TranslationItem))
    (h1 : s.store = some v) (h2 : parse v = none) :
    (loadTranslations s parse).translations = []
    ∧ (loadTranslations s parse).error = some "Could not load translation history."
    ∧ (loadTranslations s parse).store = s.store
    ∧ (loadTranslations s parse).isStorageLoading = false := by
  unfold loadTranslations
  dsimp only
  simp [h1, h2]

/-- Witness for C9 at a mount state whose store holds a non-JSON string. -/
theorem load_corrupt_store_witness :
    ((initState (some "not json")).store = some "not json")
    ∧ ((loadTranslations (initState (some "not json"))
          (fun _ => (none : Option (List TranslationItem)))).translations = []
      ∧ (loadTranslations (initState (some "not json"))
          (fun _ => none)).error = some "Could not load translation history."
      ∧ (loadTranslations (initState (some "not json"))
          (fun _ => none)).store = (initState (some "not json")).store
      ∧ (loadTranslations (initState (some "not json"))
          (fun _ => none)).isStorageLoading = false) :=
  ⟨rfl, load_corrupt_store (initState (some "not json")) "not json"
    (fun _ => none) rfl rfl⟩

/-- C10: if `startRecording` fails before capture actually begins —
permission denied, or audio-session/capture-start failure — the previous
`latestRecordingReference` is left unchanged; it is only cleared after
capture has successfully started. -/
theorem startRecording_failure_keeps_reference (s : CoordState) (r : String)
    (stopOk : Bool) (stopMsg : String) (permGranted : Bool) (startOk : Bool)
    (startMsg : String)
    (h1 : s.recordingUri = some r)
    (h2 : permGranted = false ∨ startOk = false) :
    (startRecording s stopOk stopMsg permGranted startOk startMsg).recordingUri =
      some r := by
  unfold startRecording stopPlaybackFn
  rcases h2 with h2 | h2
  · subst h2
    by_cases hp : s.isPlaying = true <;> by_cases hi : s.hasInstance = false <;>
      cases stopOk <;> simp [hp, hi, h1]
  · subst h2
    cases permGranted <;> by_cases hp : s.isPlaying = true <;>
      by_cases hi : s.hasInstance = false <;> cases stopOk <;> simp [hp, hi, h1]

/-- Witness for C10: denied permission leaves the pending recording
reference in place. -/
theorem startRecording_failure_keeps_reference_witness :
    wUploadState.recordingUri = some "file://rec1.m4a"
    ∧ (false = false ∨ true = false)
    ∧ (startRecording wUploadState true "" false true "").recordingUri =
        some "file://rec1.m4a" :=
  ⟨rfl, Or.inl rfl,
    startRecording_failure_keeps_reference wUploadState "file://rec1.m4a"
      true "" false true "" rfl (Or.inl rfl)⟩

end BarkBack
